import Mathlib

/-!
Verification of scripts/evaluate_mcp.py (MCP differential test harness).

The script drives two MCP server subprocesses over line-delimited JSON-RPC,
issues identical requests to both and compares the structured results.  The
definitions below are a shallow embedding of the parts of the script the
claims are about: the response-reading loop of `MCPServer._send_request`,
`MCPServer.list_tools`, `MCPServer.call_tool`, `MCPServer.stop` together with
the teardown block of `run_evaluation`, and `compare_results`.

JSON values are modelled by the inductive `Json`; numbers are modelled as
integers (no claim distinguishes ints from floats).  Python exceptions are
modelled by the `PyExc` error type of an `Except` result; the Python standard
library JSON decoder (`json.loads`) is an external dependency and is modelled
as an explicit `dec : String → Option Json` parameter (`none` corresponds to
`json.JSONDecodeError`).
-/

/-- A JSON value as produced by Python's json.loads: None, bool, number
(modelled as an integer), string, list, or dict (an association list of
string keys; Python dicts produced by json.loads have unique keys). -/
inductive Json where
  | null
  | bool (b : Bool)
  | num (n : Int)
  | str (s : String)
  | arr (xs : List Json)
  | obj (kvs : List (String × Json))

/-- A decoded JSON object (Python dict with string keys). -/
abbrev Obj := List (String × Json)

/-- The Python exceptions the modelled code can raise. -/
inductive PyExc where
  | runtimeError
  | typeError
  | attributeError
  | keyError
  | timeoutExpired
deriving DecidableEq, Repr

/-- Python `d[k]` semantics are first-match lookup here; dicts from json.loads
have unique keys, so any lookup convention agrees.  `d.get(k, default)`. -/
def objGet (kvs : Obj) (k : String) (d : Json) : Json :=
  (List.lookup k kvs).getD d

/-- Python `k in d` for a dict. -/
def hasKey (kvs : Obj) (k : String) : Bool :=
  (List.lookup k kvs).isSome

/-- Does the character list `hay` start with `needle`? -/
def startsWithChars : List Char → List Char → Bool
  | [], _ => true
  | _ :: _, [] => false
  | a :: as, b :: bs => a == b && startsWithChars as bs

/-- Substring test on character lists (Python `needle in hay` for strings). -/
def containsChars (needle : List Char) : List Char → Bool
  | [] => startsWithChars needle []
  | h :: t => startsWithChars needle (h :: t) || containsChars needle t

/-- Python equality of a JSON value with a string constant (used by the
`in` operator on lists: `"id" in xs` compares each element with "id"). -/
def jsonEqStr (j : Json) (k : String) : Bool :=
  match j with
  | .str s => s == k
  | _ => false

/-- The Python expression `k in j` for an arbitrary decoded JSON value:
key membership for dicts, element equality for lists, substring test for
strings, and a TypeError for the remaining (non-container) values. -/
def pythonContains (j : Json) (k : String) : Except PyExc Bool :=
  match j with
  | .obj kvs => .ok (hasKey kvs k)
  | .arr xs => .ok (xs.any (fun x => jsonEqStr x k))
  | .str s => .ok (containsChars k.toList s.toList)
  | _ => .error .typeError

/-- Python truthiness of a decoded JSON value (`if contents:`). -/
def pyTruthy (j : Json) : Bool :=
  match j with
  | .null => false
  | .bool b => b
  | .num n => n != 0
  | .str s => !s.isEmpty
  | .arr xs => !xs.isEmpty
  | .obj kvs => !kvs.isEmpty

/-- The response-reading loop of `MCPServer._send_request` (evaluate_mcp.py
lines 94-108): read a line at a time from the subprocess stdout; end of
stream raises RuntimeError ("Server closed unexpectedly"); a line that fails
to decode as JSON is logged and skipped; a decoded value for which
`"id" in response` holds is returned; any other decoded value (a
notification) is skipped.  A TypeError raised by `"id" in response` on a
non-container value is not caught by the `except json.JSONDecodeError`
handler and propagates. -/
def readResponseLoop (dec : String → Option Json) : List String → Except PyExc Json
  | [] => .error .runtimeError
  | line :: rest =>
    match dec line with
    | none => readResponseLoop dec rest
    | some response =>
      match pythonContains response "id" with
      | .error e => .error e
      | .ok true => .ok response
      | .ok false => readResponseLoop dec rest

/-- `MCPServer._send_request`, reduced to its observable selection of a
response from the stdout lines: the request id `msg_id` is written into the
outgoing request but is never consulted by the read loop (the source only
tests `"id" in response`). -/
def send_request (dec : String → Option Json) (msg_id : Nat)
    (stdout_lines : List String) : Except PyExc Json :=
  let _ := msg_id
  readResponseLoop dec stdout_lines

/-- A finite line decoder: lines present in the table decode to the paired
JSON value, everything else fails to decode (JSONDecodeError). -/
def decOf (table : List (String × Json)) (line : String) : Option Json :=
  List.lookup line table

/-- `MCPServer.list_tools` (lines 124-129) applied to the decoded
`tools/list` response: a response with an `error` key raises RuntimeError;
otherwise the result is `response.get("result", {}).get("tools", [])`.
Calling `.get` on a non-dict raises AttributeError. -/
def list_tools (response : Json) : Except PyExc Json :=
  match pythonContains response "error" with
  | .error e => .error e
  | .ok true => .error .runtimeError
  | .ok false =>
    match response with
    | .obj kvs =>
      match objGet kvs "result" (.obj []) with
      | .obj rkvs => .ok (objGet rkvs "tools" (.arr []))
      | _ => .error .attributeError
    | _ => .error .attributeError

/-- `MCPServer.call_tool` (lines 131-149) applied to the decoded `tools/call`
response.  A response with an `error` key returns the wrapper
`{"error": response["error"]}` (a normal return, not an exception).
Otherwise `result = response.get("result", {})`,
`contents = result.get("content", [])`; if `contents` is truthy and has a
positive length, `text = contents[0].get("text", "{}")` is decoded with
`json.loads`, returning the decoded value, or `{"raw": text}` on
JSONDecodeError; an absent or empty `contents` returns `result` unchanged.
Branches that index or call `.get` on values of the wrong runtime type model
the uncaught Python exception that would be raised there. -/
def call_tool (dec : String → Option Json) (response : Json) : Except PyExc Json :=
  match pythonContains response "error" with
  | .error e => .error e
  | .ok true =>
    match response with
    | .obj kvs =>
      match List.lookup "error" kvs with
      | some e => .ok (.obj [("error", e)])
      | none => .error .keyError
    | _ => .error .typeError
  | .ok false =>
    match response with
    | .obj kvs =>
      match objGet kvs "result" (.obj []) with
      | .obj rkvs =>
        match objGet rkvs "content" (.arr []) with
        | .arr [] => .ok (.obj rkvs)
        | .arr (c0 :: _) =>
          (match c0 with
           | .obj ckvs =>
             match objGet ckvs "text" (.str "\x7b\x7d") with
             | .str s =>
               match dec s with
               | some v => .ok v
               | none => .ok (.obj [("raw", .str s)])
             | _ => .error .typeError
           | _ => .error .attributeError)
        | other =>
          if pyTruthy other then
            (match other with
             | .str _ => .error .attributeError
             | .obj _ => .error .keyError
             | _ => .error .typeError)
          else .ok (.obj rkvs)
      | _ => .error .attributeError
    | _ => .error .attributeError

/-- The default volatile-field ignore set of `compare_results`
(line 166 of evaluate_mcp.py). -/
def default_ignore_keys : List String :=
  ["updated", "created", "created_on", "updated_on", "date", "timestamp"]

/-- "Python returned error, TypeScript did not" (line 172). -/
def pythonErroredMsg : String := "Python returned error, TypeScript did not"

/-- "TypeScript returned error, Python did not" (line 174). -/
def typescriptErroredMsg : String := "TypeScript returned error, Python did not"

/-- The difference string of line 198; the source quotes the key name with
single quotes, which are omitted here. -/
def arrayLenMsg (k : String) (npy nts : Nat) : String :=
  "Array " ++ k ++ " length differs: Python=" ++ toString npy
    ++ ", TypeScript=" ++ toString nts

/-- The difference string of line 200 (type names as Python spells them);
the source quotes the key name with single quotes, which are omitted here. -/
def typeMismatchMsg (k : String) (tpy tts : String) : String :=
  "Type mismatch for " ++ k ++ ": Python=" ++ tpy ++ ", TypeScript=" ++ tts

/-- `type(v).__name__` for a decoded JSON value. -/
def typeName (j : Json) : String :=
  match j with
  | .null => "NoneType"
  | .bool _ => "bool"
  | .num _ => "int"
  | .str _ => "str"
  | .arr _ => "list"
  | .obj _ => "dict"

/-- `set(result.keys()) - ignore_keys` (lines 179-180): the object's key set
(dicts from json.loads have unique keys; `dedup` models the set) minus the
ignored keys. -/
def filteredKeys (o : Obj) (ignore : List String) : List String :=
  ((o.map Prod.fst).dedup).filter (fun k => !(ignore.contains k))

/-- Set equality of two key lists (`py_keys != ts_keys`, line 182). -/
def sameKeySet (a b : List String) : Bool :=
  a.all (fun k => b.contains k) && b.all (fun k => a.contains k)

/-- The key-set asymmetry phase of `compare_results` (lines 182-188): when
the filtered key sets differ, one difference per non-empty direction.  The
source interpolates a Python set literal into the message; the keys are
rendered here as a comma-separated list. -/
def keySetDiffs (py_result ts_result : Obj) (ignore_keys : List String) : List String :=
  let pyKeys := filteredKeys py_result ignore_keys
  let tsKeys := filteredKeys ts_result ignore_keys
  if sameKeySet pyKeys tsKeys then []
  else
    let missingInTs := pyKeys.filter (fun k => !(tsKeys.contains k))
    let missingInPy := tsKeys.filter (fun k => !(pyKeys.contains k))
    (if missingInTs.isEmpty then []
     else ["Keys missing in TypeScript: " ++ String.intercalate ", " missingInTs])
    ++ (if missingInPy.isEmpty then []
        else ["Keys missing in Python: " ++ String.intercalate ", " missingInPy])

/-- The loop body of the common-key phase (lines 191-200): two lists compare
by length only; otherwise values whose runtime types differ produce a type
mismatch; scalar values are never compared. -/
def compareCommonKey (k : String) (py_val ts_val : Json) : List String :=
  match py_val, ts_val with
  | .arr xs, .arr ys =>
    if xs.length = ys.length then [] else [arrayLenMsg k xs.length ys.length]
  | _, _ =>
    if typeName py_val = typeName ts_val then []
    else [typeMismatchMsg k (typeName py_val) (typeName ts_val)]

/-- The common-key loop of lines 191-200, iterating over a given key list. -/
def commonKeyDiffsAux (py_result ts_result : Obj) : List String → List String
  | [] => []
  | k :: ks =>
    (match List.lookup k py_result, List.lookup k ts_result with
     | some pv, some tv => compareCommonKey k pv tv
     | _, _ => []) ++ commonKeyDiffsAux py_result ts_result ks

/-- `py_keys & ts_keys` (line 191): the keys present on both sides after
removing the ignored ones.  Python iterates this set in unspecified order;
the order here follows the Python-side key list, which no claim depends
on. -/
def commonKeys (py_result ts_result : Obj) (ignore_keys : List String) : List String :=
  (filteredKeys py_result ignore_keys).filter
    (fun k => (filteredKeys ts_result ignore_keys).contains k)

/-- The common-key phase of `compare_results` (lines 191-200). -/
def commonKeyDiffs (py_result ts_result : Obj) (ignore_keys : List String) : List String :=
  commonKeyDiffsAux py_result ts_result (commonKeys py_result ts_result ignore_keys)

/-- `compare_results` (lines 163-202).  The source first checks the `error`
key on the two sides: one-sided error appends one difference (and the
function then falls through to the key-set and common-key phases); two-sided
error returns the empty list at once; then the key-set asymmetry and
common-key differences accumulate in order. -/
def compare_results (py_result ts_result : Obj) (ignore_keys : List String) : List String :=
  if hasKey py_result "error" && !hasKey ts_result "error" then
    pythonErroredMsg :: (keySetDiffs py_result ts_result ignore_keys
      ++ commonKeyDiffs py_result ts_result ignore_keys)
  else if !hasKey py_result "error" && hasKey ts_result "error" then
    typescriptErroredMsg :: (keySetDiffs py_result ts_result ignore_keys
      ++ commonKeyDiffs py_result ts_result ignore_keys)
  else if hasKey py_result "error" && hasKey ts_result "error" then
    []
  else
    keySetDiffs py_result ts_result ignore_keys
      ++ commonKeyDiffs py_result ts_result ignore_keys

/-- The error-check phase of `compare_results` in isolation (lines 171-176,
excluding the two-sided-error early return). -/
def compareErrorPhase (py_result ts_result : Obj) : List String :=
  if hasKey py_result "error" && !hasKey ts_result "error" then [pythonErroredMsg]
  else if !hasKey py_result "error" && hasKey ts_result "error" then [typescriptErroredMsg]
  else []

/-- A server subprocess after `terminate()` has been sent, abstracted to the
one observable the model needs: whether it exits within the 5-second grace
period that `process.wait(timeout=5)` allows. -/
structure Proc where
  exitsWithinGrace : Bool

/-- `MCPServer.stop` (lines 70-74): if the process was started, send
terminate and wait up to 5 seconds; a process that does not exit within the
grace period makes `wait` raise `subprocess.TimeoutExpired`, which the
source does not catch (and there is no kill escalation). -/
def MCPServer.stop (process : Option Proc) : Except PyExc Unit :=
  match process with
  | none => .ok ()
  | some p =>
    if p.exitsWithinGrace then .ok () else .error .timeoutExpired

/-- The `finally` block of `run_evaluation` (lines 360-366) in two-server
mode: `ts_server.stop()` runs first; only if it returns normally does
`py_server.stop()` run.  The boolean records whether `py_server.stop()` was
invoked; the `Option PyExc` is the exception, if any, that escapes the
block. -/
def run_evaluation_teardown (ts_process py_process : Option Proc) :
    Bool × Option PyExc :=
  match MCPServer.stop ts_process with
  | .error e => (false, some e)
  | .ok _ =>
    match MCPServer.stop py_process with
    | .error e => (true, some e)
    | .ok _ => (true, none)

/-! ### Helper lemmas -/

theorem compareCommonKey_self (k : String) (v : Json) : compareCommonKey k v v = [] := by
  cases v <;> simp [compareCommonKey]

theorem commonKeyDiffsAux_self (x : Obj) (ks : List String) :
    commonKeyDiffsAux x x ks = [] := by
  induction ks with
  | nil => rfl
  | cons k ks ih =>
    simp only [commonKeyDiffsAux, ih, List.append_nil]
    cases h : List.lookup k x <;> simp [compareCommonKey_self]

theorem sameKeySet_self (l : List String) : sameKeySet l l = true := by
  simp only [sameKeySet, Bool.and_self, List.all_eq_true]
  intro a ha
  simpa using ha

theorem keySetDiffs_self (x : Obj) (ig : List String) : keySetDiffs x x ig = [] := by
  simp [keySetDiffs, sameKeySet_self]

theorem commonKeyDiffsAux_append (py ts : Obj) (l1 l2 : List String) :
    commonKeyDiffsAux py ts (l1 ++ l2)
      = commonKeyDiffsAux py ts l1 ++ commonKeyDiffsAux py ts l2 := by
  induction l1 with
  | nil => rfl
  | cons k ks ih => simp [commonKeyDiffsAux, ih]

theorem compare_results_eq_phases (py ts : Obj) (ig : List String)
    (h : ¬(hasKey py "error" = true ∧ hasKey ts "error" = true)) :
    compare_results py ts ig
      = compareErrorPhase py ts ++ (keySetDiffs py ts ig ++ commonKeyDiffs py ts ig) := by
  cases hpy : hasKey py "error" <;> cases hts : hasKey ts "error" <;>
    simp_all [compare_results, compareErrorPhase]

theorem mem_keys_of_lookup_eq_some {o : Obj} {k : String} {v : Json}
    (h : List.lookup k o = some v) : k ∈ o.map Prod.fst := by
  induction o with
  | nil => simp at h
  | cons p t ih =>
    rw [List.lookup_cons] at h
    by_cases hk : k = p.1
    · simp [hk]
    · have : (k == p.1) = false := by simpa using hk
      rw [this] at h
      simp [ih h]

theorem mem_filteredKeys {o : Obj} {ig : List String} {k : String} {v : Json}
    (h : List.lookup k o = some v) (hig : k ∉ ig) : k ∈ filteredKeys o ig := by
  simp only [filteredKeys, List.mem_filter, List.mem_dedup]
  exact ⟨mem_keys_of_lookup_eq_some h, by simpa using hig⟩

theorem nodup_filteredKeys (o : Obj) (ig : List String) : (filteredKeys o ig).Nodup :=
  (List.nodup_dedup _).filter _

theorem mem_commonKeys {py ts : Obj} {ig : List String} {k : String} {pv tv : Json}
    (hpy : List.lookup k py = some pv) (hts : List.lookup k ts = some tv)
    (hig : k ∉ ig) : k ∈ commonKeys py ts ig := by
  simp only [commonKeys, List.mem_filter]
  refine ⟨mem_filteredKeys hpy hig, ?_⟩
  simpa using mem_filteredKeys hts hig

theorem nodup_commonKeys (py ts : Obj) (ig : List String) :
    (commonKeys py ts ig).Nodup :=
  (nodup_filteredKeys py ig).filter _

/-! ### C9: reflexivity of compare_results -/

/-- C9: `compare_results` is reflexive: for every mapping `x` and every
ignore set, `compare_results x x ignore` is the empty list. -/
theorem c9_compare_results_reflexive (x : Obj) (ig : List String) :
    compare_results x x ig = [] := by
  cases h : hasKey x "error" <;>
    simp [compare_results, h, keySetDiffs_self, commonKeyDiffs, commonKeyDiffsAux_self]

/-! ### C6: two-sided errors compare as a match -/

/-- C6: for every pair of result mappings that both contain an `error` key,
`compare_results` returns the empty list, whatever the two error values and
the remaining fields are. -/
theorem c6_both_errors_empty (py ts : Obj) (ig : List String)
    (hpy : hasKey py "error" = true) (hts : hasKey ts "error" = true) :
    compare_results py ts ig = [] := by
  simp [compare_results, hpy, hts]

/-- Witness for C6 at a concrete input: the two error payloads differ and
further fields diverge, yet the comparison is empty. -/
theorem c6_both_errors_empty_witness :
    compare_results [("error", Json.num 1), ("a", Json.str "x")]
        [("error", Json.str "boom")] default_ignore_keys = [] :=
  c6_both_errors_empty _ _ _ (by rfl) (by rfl)

/-! ### C2: one-sided error -/

/-- C2 counterexample: with exactly one side erroring, `compare_results`
does not stop after the single error difference — the key-set comparison
still runs, so this input yields two differences, not one. -/
theorem c2_one_sided_error_two_diffs_cex :
    compare_results [("error", Json.num 1)] [] default_ignore_keys
      = [pythonErroredMsg, "Keys missing in TypeScript: error"]
    ∧ (compare_results [("error", Json.num 1)] [] default_ignore_keys).length = 2 := by
  exact ⟨by rfl, by rfl⟩

/-- C2 amended: when exactly one side carries an `error` key, the output
starts with the single difference naming the errored side, but the key-set
and common-key comparison phases still run and their differences follow. -/
theorem c2_error_diff_then_comparison_continues (py ts : Obj) (ig : List String) :
    (hasKey py "error" = true → hasKey ts "error" = false →
      compare_results py ts ig
        = pythonErroredMsg :: (keySetDiffs py ts ig ++ commonKeyDiffs py ts ig))
    ∧ (hasKey py "error" = false → hasKey ts "error" = true →
      compare_results py ts ig
        = typescriptErroredMsg :: (keySetDiffs py ts ig ++ commonKeyDiffs py ts ig)) := by
  constructor <;> intro h1 h2 <;> simp [compare_results, h1, h2]

/-- Witness for C2 amended at a concrete one-sided-error input. -/
theorem c2_error_diff_then_comparison_continues_witness :
    compare_results [("error", Json.num 1)] [] default_ignore_keys
      = pythonErroredMsg :: (keySetDiffs [("error", Json.num 1)] [] default_ignore_keys
          ++ commonKeyDiffs [("error", Json.num 1)] [] default_ignore_keys) :=
  (c2_error_diff_then_comparison_continues _ _ _).1 (by rfl) (by rfl)

/-! ### C8: sequence-valued fields compare by length only -/

/-- C8 counterexample: a key whose values are sequences of unequal length
produces no difference at all when both sides also carry an `error` key,
because the two-sided-error check returns the empty list before any per-key
comparison runs. -/
theorem c8_both_error_suppresses_length_diff_cex :
    compare_results [("error", Json.num 1), ("xs", Json.arr [Json.num 1, Json.num 2])]
        [("error", Json.num 2), ("xs", Json.arr [Json.num 3])] default_ignore_keys = []
    ∧ List.lookup "xs" [("error", Json.num 1), ("xs", Json.arr [Json.num 1, Json.num 2])]
        = some (Json.arr [Json.num 1, Json.num 2])
    ∧ List.lookup "xs" [("error", Json.num 2), ("xs", Json.arr [Json.num 3])]
        = some (Json.arr [Json.num 3])
    ∧ "xs" ∉ default_ignore_keys
    ∧ [Json.num 1, Json.num 2].length ≠ [Json.num 3].length := by
  refine ⟨by rfl, by rfl, by rfl, by decide, by decide⟩

/-- C8 amended: provided the two sides do not both carry an `error` key, a
key present on both sides outside the ignore set whose values are both
sequences contributes, inside the output of `compare_results`, no
difference when the lengths are equal and exactly the single difference
naming both lengths when they are not (the key occurs exactly once in the
iterated common-key list). -/
theorem c8_sequence_length_only (py ts : Obj) (ig : List String) (k : String)
    (xs ys : List Json)
    (hboth : ¬(hasKey py "error" = true ∧ hasKey ts "error" = true))
    (hpy : List.lookup k py = some (.arr xs))
    (hts : List.lookup k ts = some (.arr ys))
    (hig : k ∉ ig) :
    ∃ pre post,
      commonKeys py ts ig = pre ++ k :: post ∧ k ∉ pre ∧ k ∉ post ∧
      compare_results py ts ig
        = compareErrorPhase py ts ++ keySetDiffs py ts ig
          ++ (commonKeyDiffsAux py ts pre
              ++ (if xs.length = ys.length then []
                  else [arrayLenMsg k xs.length ys.length])
              ++ commonKeyDiffsAux py ts post) := by
  obtain ⟨pre, post, hsplit⟩ := List.append_of_mem (mem_commonKeys hpy hts hig)
  have hnd : (pre ++ k :: post).Nodup := hsplit ▸ nodup_commonKeys py ts ig
  rw [List.nodup_append] at hnd
  obtain ⟨hpre, hkpost, hdisj⟩ := hnd
  refine ⟨pre, post, hsplit, ?_, ?_, ?_⟩
  · intro hk
    exact hdisj hk (List.mem_cons_self k post)
  · exact (List.nodup_cons.mp hkpost).1
  · rw [compare_results_eq_phases py ts ig hboth, commonKeyDiffs, hsplit,
      commonKeyDiffsAux_append]
    simp [commonKeyDiffsAux, hpy, hts, compareCommonKey, List.append_assoc]

/-- Witness for C8 amended at a concrete input with unequal lengths. -/
theorem c8_sequence_length_only_witness :
    ∃ pre post,
      commonKeys [("a", Json.arr [Json.num 1])]
          [("a", Json.arr [Json.num 1, Json.num 2])] [] = pre ++ "a" :: post
      ∧ "a" ∉ pre ∧ "a" ∉ post
      ∧ compare_results [("a", Json.arr [Json.num 1])]
            [("a", Json.arr [Json.num 1, Json.num 2])] []
          = compareErrorPhase [("a", Json.arr [Json.num 1])]
              [("a", Json.arr [Json.num 1, Json.num 2])]
            ++ keySetDiffs [("a", Json.arr [Json.num 1])]
                [("a", Json.arr [Json.num 1, Json.num 2])] []
            ++ (commonKeyDiffsAux [("a", Json.arr [Json.num 1])]
                  [("a", Json.arr [Json.num 1, Json.num 2])] pre
                ++ (if [Json.num 1].length = [Json.num 1, Json.num 2].length then []
                    else [arrayLenMsg "a" [Json.num 1].length
                        [Json.num 1, Json.num 2].length])
                ++ commonKeyDiffsAux [("a", Json.arr [Json.num 1])]
                    [("a", Json.arr [Json.num 1, Json.num 2])] post) :=
  c8_sequence_length_only [("a", Json.arr [Json.num 1])]
    [("a", Json.arr [Json.num 1, Json.num 2])] [] "a" [Json.num 1]
    [Json.num 1, Json.num 2] (by decide) (by rfl) (by rfl) (by simp)

/-! ### C1: id correlation in the receive loop -/

theorem readResponseLoop_ok_hasId (dec : String → Option Json) :
    ∀ (lines : List String) (response : Json),
      readResponseLoop dec lines = .ok response →
      pythonContains response "id" = .ok true := by
  intro lines
  induction lines with
  | nil => intro r h; simp [readResponseLoop] at h
  | cons l rest ih =>
    intro r h
    simp only [readResponseLoop] at h
    cases hdec : dec l with
    | none =>
      simp only [hdec] at h
      exact ih r h
    | some j =>
      simp only [hdec] at h
      cases hc : pythonContains j "id" with
      | error e =>
        simp only [hc] at h
        exact Except.noConfusion h
      | ok b =>
        simp only [hc] at h
        cases b
        · exact ih r h
        · obtain rfl : j = r := by simpa using h
          exact hc

/-- The line decoder used to exhibit the C1 counterexample: one line that
parses to a response whose id is 999. -/
def decC1 : String → Option Json := decOf [("r999", Json.obj [("id", Json.num 999)])]

/-- C1 counterexample: a request sent with id 1 receives, from the stream,
a parsed object whose id is 999; `_send_request` returns that object as the
response instead of failing — no id comparison is performed and the source
defines no ProtocolError. -/
theorem c1_mismatched_id_returned_cex :
    send_request decC1 1 ["r999"] = .ok (Json.obj [("id", Json.num 999)])
    ∧ List.lookup "id" [("id", Json.num 999)] = some (Json.num 999)
    ∧ Json.num 999 ≠ Json.num 1 := by
  refine ⟨by rfl, by rfl, ?_⟩
  intro h
  injection h with h'
  exact absurd h' (by decide)

/-- C1 amended: the receive loop returns the first parsed value for which
the Python test `"id" in response` holds — so notifications are never
returned — but the value of that id is never compared with the requested
id, and a response with a different id is returned rather than rejected. -/
theorem c1_returns_first_id_bearing_value (dec : String → Option Json)
    (msg_id : Nat) (lines : List String) (response : Json)
    (h : send_request dec msg_id lines = .ok response) :
    pythonContains response "id" = .ok true :=
  readResponseLoop_ok_hasId dec lines response (by simpa [send_request] using h)

/-- Witness for C1 amended: the returned object of the counterexample
stream indeed carries an id key. -/
theorem c1_returns_first_id_bearing_value_witness :
    pythonContains (Json.obj [("id", Json.num 999)]) "id" = .ok true :=
  c1_returns_first_id_bearing_value decC1 1 ["r999"] (Json.obj [("id", Json.num 999)])
    (by rfl)

/-! ### C5: junk lines and notifications are skipped -/

/-- C5: if every line before the response line either fails to decode as
JSON (it is logged and skipped) or decodes to an object without an `id` key
(a notification, silently discarded), the loop still returns the id-bearing
response that follows them; in particular a notification is never the
returned value. -/
theorem c5_skips_junk_and_returns_response (dec : String → Option Json)
    (msg_id : Nat) (junk : List String) (respLine : String) (rkvs : Obj)
    (hjunk : ∀ l ∈ junk, dec l = none
      ∨ ∃ kvs, dec l = some (Json.obj kvs) ∧ List.lookup "id" kvs = none)
    (hresp : dec respLine = some (Json.obj rkvs))
    (hid : (List.lookup "id" rkvs).isSome = true) :
    send_request dec msg_id (junk ++ [respLine]) = .ok (Json.obj rkvs) := by
  simp only [send_request]
  induction junk with
  | nil =>
    simp [readResponseLoop, hresp, pythonContains, hasKey, hid]
  | cons l rest ih =>
    have hl := hjunk l (List.mem_cons_self l rest)
    have hrest : ∀ x ∈ rest, dec x = none
        ∨ ∃ kvs, dec x = some (Json.obj kvs) ∧ List.lookup "id" kvs = none :=
      fun x hx => hjunk x (List.mem_cons_of_mem l hx)
    simp only [List.cons_append, readResponseLoop]
    rcases hl with hnone | ⟨kvs, hdec, hnid⟩
    · rw [hnone]
      exact ih hrest
    · rw [hdec]
      simp only [pythonContains, hasKey, hnid, Option.isSome_none]
      exact ih hrest

/-- The line decoder used for the C5 witness: a notification line and the
response line; the garbage line is absent from the table, so it fails to
decode. -/
def decC5 : String → Option Json :=
  decOf [("notif", Json.obj [("method", Json.str "x")]),
         ("resp", Json.obj [("id", Json.num 3), ("result", Json.obj [])])]

/-- Witness for C5 at a concrete stream: a non-JSON line and a notification
precede the response, which is still returned. -/
theorem c5_skips_junk_and_returns_response_witness :
    send_request decC5 7 ["not json\x7b", "notif", "resp"]
      = .ok (Json.obj [("id", Json.num 3), ("result", Json.obj [])]) :=
  c5_skips_junk_and_returns_response decC5 7 ["not json\x7b", "notif"] "resp"
    [("id", Json.num 3), ("result", Json.obj [])]
    (by
      intro l hl
      simp only [List.mem_cons, List.not_mem_nil, or_false] at hl
      rcases hl with rfl | rfl
      · left; rfl
      · right; exact ⟨[("method", Json.str "x")], rfl, rfl⟩)
    (by rfl) (by rfl)

/-! ### C3: stop and teardown -/

/-- C3 counterexample: a process that does not exit within the grace period
makes `MCPServer.stop` raise `TimeoutExpired` (there is no force-kill in the
source), and in `run_evaluation`'s `finally` block that exception escapes
before `py_server.stop()` is reached: the second session is not released. -/
theorem c3_stop_timeout_propagates_cex :
    MCPServer.stop (some ⟨false⟩) = .error PyExc.timeoutExpired
    ∧ run_evaluation_teardown (some ⟨false⟩) (some ⟨true⟩)
        = (false, some PyExc.timeoutExpired) :=
  ⟨rfl, rfl⟩

/-- C3 amended: the teardown block completes without an exception exactly
when both stops return normally, and the second session's stop is invoked
exactly when the first stop returns normally — a first-stop timeout
propagates and skips the second stop. -/
theorem c3_teardown_no_exception_iff (ts py : Option Proc) :
    ((run_evaluation_teardown ts py).2 = none
      ↔ MCPServer.stop ts = .ok () ∧ MCPServer.stop py = .ok ())
    ∧ ((run_evaluation_teardown ts py).1 = true ↔ MCPServer.stop ts = .ok ()) := by
  have hcase : ∀ (o : Option Proc), o = none ∨ o = some ⟨true⟩ ∨ o = some ⟨false⟩ := by
    intro o
    rcases o with _ | ⟨⟨b⟩⟩
    · exact Or.inl rfl
    · cases b
      · exact Or.inr (Or.inr rfl)
      · exact Or.inr (Or.inl rfl)
  rcases hcase ts with rfl | rfl | rfl <;> rcases hcase py with rfl | rfl | rfl <;>
    simp [run_evaluation_teardown, MCPServer.stop]

/-! ### C4: call_tool result shapes -/

/-- C4: on a `tools/call` response, `call_tool` returns exactly one of three
shapes: the verbatim error wrapper when the response carries `error` (a
normal return, not an exception); else, for a non-empty `result.content`
whose first block has a string `text` field, the JSON decoding of that text
when decoding succeeds and the raw-text wrapper when it fails; and for an
absent or empty `content`, the `result` object itself unchanged. -/
theorem c4_call_tool_three_shapes (dec : String → Option Json)
    (kvs rkvs ckvs : Obj) (rest : List Json) (s : String) :
    (∀ e, List.lookup "error" kvs = some e →
      call_tool dec (.obj kvs) = .ok (.obj [("error", e)]))
    ∧ (List.lookup "error" kvs = none →
       objGet kvs "result" (.obj []) = .obj rkvs →
        ((objGet rkvs "content" (.arr []) = .arr (Json.obj ckvs :: rest) →
          List.lookup "text" ckvs = some (.str s) →
            ((∀ v, dec s = some v → call_tool dec (.obj kvs) = .ok v)
             ∧ (dec s = none →
                call_tool dec (.obj kvs) = .ok (.obj [("raw", .str s)]))))
         ∧ (objGet rkvs "content" (.arr []) = .arr [] →
            call_tool dec (.obj kvs) = .ok (.obj rkvs)))) := by
  refine ⟨?_, ?_⟩
  · intro e he
    simp [call_tool, pythonContains, hasKey, he]
  · intro he hres
    refine ⟨?_, ?_⟩
    · intro hcon htext
      have htext2 : objGet ckvs "text" (.str "\x7b\x7d") = .str s := by
        simp [objGet, htext]
      refine ⟨?_, ?_⟩
      · intro v hv
        simp [call_tool, pythonContains, hasKey, he, hres, hcon, htext2, hv]
      · intro hv
        simp [call_tool, pythonContains, hasKey, he, hres, hcon, htext2, hv]
    · intro hcon
      simp [call_tool, pythonContains, hasKey, he, hres, hcon]

/-- Witness for C4 at concrete inputs: the error wrapper on an error
response, and the decoded first text block of a content envelope. -/
theorem c4_call_tool_three_shapes_witness :
    call_tool (decOf []) (Json.obj [("error", Json.num 5)])
      = .ok (Json.obj [("error", Json.num 5)])
    ∧ call_tool (decOf [("payload", Json.num 42)])
        (Json.obj [("result", Json.obj [("content", Json.arr
          [Json.obj [("type", Json.str "text"), ("text", Json.str "payload")]])])])
        = .ok (Json.num 42) :=
  ⟨(c4_call_tool_three_shapes (decOf []) [("error", Json.num 5)] [] [] [] "").1
      (Json.num 5) rfl,
   (((c4_call_tool_three_shapes (decOf [("payload", Json.num 42)])
        [("result", Json.obj [("content", Json.arr
          [Json.obj [("type", Json.str "text"), ("text", Json.str "payload")]])])]
        [("content", Json.arr
          [Json.obj [("type", Json.str "text"), ("text", Json.str "payload")]])]
        [("type", Json.str "text"), ("text", Json.str "payload")]
        [] "payload").2 rfl rfl).1 rfl rfl).1 (Json.num 42) rfl⟩

/-! ### C7: list_tools error handling -/

/-- C7: on a well-shaped `tools/list` response (the `result` field, when
present, is an object), `list_tools` raises exactly when the response
carries an `error` key; otherwise it returns `result.tools`, and the empty
list — not a failure — when `result` or `tools` is absent. -/
theorem c7_list_tools_error_iff (kvs rkvs : Obj)
    (hres : objGet kvs "result" (.obj []) = .obj rkvs) :
    (hasKey kvs "error" = true → list_tools (.obj kvs) = .error PyExc.runtimeError)
    ∧ (hasKey kvs "error" = false →
        list_tools (.obj kvs) = .ok (objGet rkvs "tools" (.arr []))
        ∧ (List.lookup "tools" rkvs = none → list_tools (.obj kvs) = .ok (.arr []))) := by
  refine ⟨?_, ?_⟩
  · intro he
    simp [list_tools, pythonContains, he]
  · intro he
    have h1 : list_tools (.obj kvs) = .ok (objGet rkvs "tools" (.arr [])) := by
      simp [list_tools, pythonContains, he, hres]
    refine ⟨h1, ?_⟩
    intro ht
    rw [h1]
    simp [objGet, ht]

/-- Witness for C7: an error response raises; a response with an empty
result object yields the empty tool list. -/
theorem c7_list_tools_error_iff_witness :
    list_tools (Json.obj [("error", Json.num 1)]) = .error PyExc.runtimeError
    ∧ list_tools (Json.obj [("result", Json.obj [])]) = .ok (Json.arr []) :=
  ⟨(c7_list_tools_error_iff [("error", Json.num 1)] [] (by rfl)).1 (by rfl),
   ((c7_list_tools_error_iff [("result", Json.obj [])] [] (by rfl)).2 (by rfl)).2 (by rfl)⟩

/-! ### C10: missing text field decodes the default -/

/-- C10: when `result.content` is non-empty but its first block has no
`text` key, `call_tool` decodes the default string of `contents[0].get`,
namely the two-character JSON text for an empty object, and so returns the
empty mapping — not the raw-text wrapper and not the enclosing result.  The
hypothesis on `dec` records what Python's `json.loads` does on that
string. -/
theorem c10_missing_text_decodes_empty_mapping (dec : String → Option Json)
    (kvs rkvs ckvs : Obj) (rest : List Json)
    (herr : List.lookup "error" kvs = none)
    (hres : objGet kvs "result" (.obj []) = .obj rkvs)
    (hcon : objGet rkvs "content" (.arr []) = .arr (Json.obj ckvs :: rest))
    (htext : List.lookup "text" ckvs = none)
    (hdec : dec "\x7b\x7d" = some (.obj [])) :
    call_tool dec (.obj kvs) = .ok (.obj []) := by
  have htext2 : objGet ckvs "text" (.str "\x7b\x7d") = .str "\x7b\x7d" := by
    simp [objGet, htext]
  simp [call_tool, pythonContains, hasKey, herr, hres, hcon, htext2, hdec]

/-- The decoder table for the C10 witness: only the empty-object JSON text
decodes. -/
def decEmptyObj : String → Option Json := decOf [("\x7b\x7d", Json.obj [])]

/-- Witness for C10 at a concrete response whose single content block lacks
a `text` field. -/
theorem c10_missing_text_decodes_empty_mapping_witness :
    call_tool decEmptyObj (Json.obj [("result", Json.obj [("content",
      Json.arr [Json.obj [("type", Json.str "text")]])])]) = .ok (Json.obj []) :=
  c10_missing_text_decodes_empty_mapping decEmptyObj
    [("result", Json.obj [("content", Json.arr [Json.obj [("type", Json.str "text")]])])]
    [("content", Json.arr [Json.obj [("type", Json.str "text")]])]
    [("type", Json.str "text")] []
    (by rfl) (by rfl) (by rfl) (by rfl) (by rfl)
